import Mathlib

/-!
Verification of the `mobile-geolocation` crate (facade in `src/lib.rs`,
Darwin backend in `src/darwin.rs`, web backend in `src/web.rs`).

Coordinates are `f64` pairs in the source; no arithmetic is ever performed on
them (they are passed through unchanged from the native subsystem), so they
are modelled as exact rational pairs.

Each backend operation is embedded as a pure function from an explicit
environment (main-thread status, authorization state, the native manager's
cached fix, browser API availability, ...) to its return value together with
the ordered list of native calls it performs.
-/

/-- A geographic coordinate: (latitude, longitude). The source performs no
arithmetic on coordinate values, so `f64` pass-through is modelled exactly. -/
abbrev Coordinate := ℚ × ℚ

namespace Darwin

/-- `CLAuthorizationStatus` values used by `src/darwin.rs`. -/
inductive CLAuthorizationStatus where
  | notDetermined
  | restricted
  | denied
  | authorizedAlways
  | authorizedWhenInUse
deriving DecidableEq, Repr

/-- One native CoreLocation call performed by the Darwin backend. -/
inductive DarwinCall where
  | getManager
  | queryAuthStatus
  | promptWhenInUse
  | queryLocation
  | startUpdating
  | sleepMs (ms : ℕ)
  | stopUpdating
deriving DecidableEq, Repr

/-- Environment of one Darwin-backend call: whether `MainThreadMarker::new()`
succeeds, the manager's authorization status, the manager's cached fix at the
first `location()` query, and the cached fix at the re-query after the
1000 ms wait of the slow path. -/
structure DarwinEnv where
  onMainThread : Bool
  authStatus : CLAuthorizationStatus
  cachedFix : Option Coordinate
  fixAfterWait : Option Coordinate
deriving DecidableEq, Repr

/-- Embedding of `request_permission` (src/darwin.rs lines 25-43): off the
main thread return `false` with no native call; otherwise get the manager,
query the authorization status, prompt iff `NotDetermined`, return `true`. -/
def request_permission (env : DarwinEnv) : Bool × List DarwinCall :=
  if env.onMainThread then
    let prompt : List DarwinCall :=
      if env.authStatus = CLAuthorizationStatus.notDetermined then
        [DarwinCall.promptWhenInUse]
      else []
    (true, [DarwinCall.getManager, DarwinCall.queryAuthStatus] ++ prompt)
  else
    (false, [])

/-- Embedding of `last_known` (src/darwin.rs lines 46-97): off the main
thread return `None` with no native call. Otherwise get the manager and query
the authorization status (the source's `match` on it is empty in every arm:
the status gates nothing). Query the cached fix; if present return it at
once. Otherwise start updates, sleep 1000 ms, re-query the fix, stop updates
and return whatever the re-query found. -/
def last_known (env : DarwinEnv) : Option Coordinate × List DarwinCall :=
  if env.onMainThread then
    match env.cachedFix with
    | some c =>
        (some c, [DarwinCall.getManager, DarwinCall.queryAuthStatus,
                  DarwinCall.queryLocation])
    | none =>
        (env.fixAfterWait,
         [DarwinCall.getManager, DarwinCall.queryAuthStatus,
          DarwinCall.queryLocation, DarwinCall.startUpdating,
          DarwinCall.sleepMs 1000, DarwinCall.queryLocation,
          DarwinCall.stopUpdating])
  else
    (none, [])

end Darwin

namespace Web

/-- The `PositionOptions` configured before a browser position request
(src/web.rs): high-accuracy flag, timeout and maximum cached-position age in
milliseconds. -/
structure PositionOptions where
  enableHighAccuracy : Bool
  timeout : ℕ
  maximumAge : ℕ
deriving DecidableEq, Repr

/-- One native browser call performed by the web backend: the single
`getCurrentPosition` request, carrying its options; issuing it also installs
the success and error callbacks. -/
inductive WebCall where
  | issueRequest (options : PositionOptions)
deriving DecidableEq, Repr

/-- Environment of one web-backend call: whether `web_sys::window()` returns
a window, whether `navigator.geolocation()` succeeds, and whether the native
`getCurrentPosition` call itself returns `Ok` (rather than rejecting
synchronously). -/
structure WebEnv where
  hasWindow : Bool
  geolocationAvailable : Bool
  requestAccepted : Bool
deriving DecidableEq, Repr

/-- The cache starts empty at process start
(`CACHED_POSITION: RefCell<Option<(f64, f64)>> = RefCell::new(None)`). -/
def initialCache : Option Coordinate := none

/-- An asynchronous callback delivered later by the browser to the closures
installed by a position request: success with a coordinate, or a
`PositionError`. -/
inductive CallbackEvent where
  | success (c : Coordinate)
  | failure
deriving DecidableEq, Repr

/-- Effect of one delivered callback on the cached position (src/web.rs
lines 73-81): the success closure overwrites the cache via
`update_cached_position`; the error closure ignores the error. -/
def applyCallback (cache : Option Coordinate) : CallbackEvent → Option Coordinate
  | CallbackEvent.success c => some c
  | CallbackEvent.failure => cache

/-- Embedding of `last_known` (src/web.rs lines 43-45): a pure read of the
cached position, performing no native call. -/
def last_known (cache : Option Coordinate) : Option Coordinate × List WebCall :=
  (cache, [])

/-- Options of the cache-populating request (src/web.rs lines 83-86):
low accuracy, 10 s timeout, cached browser positions up to 60 s old. -/
def syncOptions : PositionOptions :=
  { enableHighAccuracy := false, timeout := 10000, maximumAge := 60000 }

/-- Embedding of `get_current_position_sync` (src/web.rs lines 60-99): bail
out with `false` and no native call when there is no window or the
geolocation API is unavailable; otherwise issue the one request with
`syncOptions` and return whether the native call accepted it. The cache is
passed through untouched — only later callbacks mutate it. -/
def get_current_position_sync (env : WebEnv) (cache : Option Coordinate) :
    Bool × Option Coordinate × List WebCall :=
  if env.hasWindow then
    if env.geolocationAvailable then
      (env.requestAccepted, cache, [WebCall.issueRequest syncOptions])
    else (false, cache, [])
  else (false, cache, [])

/-- Embedding of `request_permission` (src/web.rs lines 21-35): `false` when
there is no window or the geolocation API is unavailable; otherwise the
result of `get_current_position_sync`. -/
def request_permission (env : WebEnv) (cache : Option Coordinate) :
    Bool × Option Coordinate × List WebCall :=
  if env.hasWindow then
    if env.geolocationAvailable then get_current_position_sync env cache
    else (false, cache, [])
  else (false, cache, [])

/-- Options of the explicitly asynchronous variant (src/web.rs lines
116-119): high accuracy, 10 s timeout, no cached position. -/
def asyncOptions : PositionOptions :=
  { enableHighAccuracy := true, timeout := 10000, maximumAge := 0 }

/-- Embedding of `get_current_position` (src/web.rs lines 105-130): errors
for a missing window, an unavailable geolocation API, or a synchronous
rejection of the native request call; otherwise `Ok`. -/
def get_current_position (env : WebEnv) :
    Except String Unit × List WebCall :=
  if env.hasWindow then
    if env.geolocationAvailable then
      if env.requestAccepted then
        (Except.ok (), [WebCall.issueRequest asyncOptions])
      else
        (Except.error "Failed to request position",
         [WebCall.issueRequest asyncOptions])
    else (Except.error "Geolocation not available", [])
  else (Except.error "No window object", [])

/-- Whether an `Except` result is a success. -/
def exceptIsOk : Except String Unit → Bool
  | Except.ok _ => true
  | Except.error _ => false

/-- The coordinate of the most recent successful callback in a
chronologically ordered event list, if any such callback exists. -/
def lastSuccessCoord : List CallbackEvent → Option Coordinate
  | [] => none
  | e :: rest =>
      match lastSuccessCoord rest with
      | some c => some c
      | none =>
          match e with
          | CallbackEvent.success c => some c
          | CallbackEvent.failure => none

end Web

namespace Geo

/-- One feature-gated capability declaration of `src/lib.rs`
(`LOCATION_FINE`, `LOCATION_COARSE`, `BACKGROUND_LOCATION`). -/
inductive PermissionKind where
  | locationFine
  | locationCoarse
  | backgroundLocation
deriving DecidableEq, Repr

/-- The compile-time feature toggles of the crate. -/
structure BuildFeatures where
  locationFine : Bool
  locationCoarse : Bool
  backgroundLocation : Bool
deriving DecidableEq, Repr

/-- The compile-time target the facade dispatches on. -/
inductive Target where
  | android
  | ios
  | macos
  | web
  | unsupported
deriving DecidableEq, Repr

/-- One observable step of a facade call: dereferencing one capability
declaration, touching the framework metadata, or handing control to the
selected backend. -/
inductive FacadeEvent where
  | touchPermission (k : PermissionKind)
  | touchMetadata
  | dispatchBackend (t : Target)
deriving DecidableEq, Repr

/-- Embedding of `__ensure_permissions_linked` (src/lib.rs lines 192-205):
dereference each feature-enabled permission constant, in source order. -/
def __ensure_permissions_linked (f : BuildFeatures) : List PermissionKind :=
  (if f.locationFine then [PermissionKind.locationFine] else []) ++
  (if f.locationCoarse then [PermissionKind.locationCoarse] else []) ++
  (if f.backgroundLocation then [PermissionKind.backgroundLocation] else [])

/-- Environment of one facade call: the enabled features, the compile-time
target, and the per-backend environments. `src/android.rs` is not among the
sources, so the Android backend results are environment-provided. -/
structure FacadeEnv where
  features : BuildFeatures
  target : Target
  darwinEnv : Darwin.DarwinEnv
  webEnv : Web.WebEnv
  webCache : Option Coordinate
  androidRequestResult : Bool
  androidLastKnown : Option Coordinate
deriving DecidableEq, Repr

/-- Modelled from the spec: the stub backend for unsupported targets
(`src/unsupported.rs`, not among the sources) — `request_permission` is
constantly `false` with no side effect (spec section 4.5). -/
def unsupported_request_permission : Bool := false

/-- Modelled from the spec: the stub backend for unsupported targets
(`src/unsupported.rs`, not among the sources) — `last_known` is constantly
`None` with no side effect (spec section 4.5). -/
def unsupported_last_known : Option Coordinate := none

/-- Backend dispatch of `request_location_permission` (src/lib.rs lines
242-254): exactly one backend, chosen by the compile-time target. The
Android result is environment-provided (its source is not in the sources). -/
def dispatch_request_permission (env : FacadeEnv) : Bool :=
  match env.target with
  | Target.android => env.androidRequestResult
  | Target.ios => (Darwin.request_permission env.darwinEnv).1
  | Target.macos => (Darwin.request_permission env.darwinEnv).1
  | Target.web => (Web.request_permission env.webEnv env.webCache).1
  | Target.unsupported => unsupported_request_permission

/-- Backend dispatch of `last_known_location` (src/lib.rs lines 305-317). -/
def dispatch_last_known (env : FacadeEnv) : Option Coordinate :=
  match env.target with
  | Target.android => env.androidLastKnown
  | Target.ios => (Darwin.last_known env.darwinEnv).1
  | Target.macos => (Darwin.last_known env.darwinEnv).1
  | Target.web => (Web.last_known env.webCache).1
  | Target.unsupported => unsupported_last_known

/-- The leading events every facade operation performs before dispatching
(src/lib.rs lines 238-240 and 301-303): `__ensure_permissions_linked()` then
`__ensure_metadata_linked()`. -/
def linkEvents (f : BuildFeatures) : List FacadeEvent :=
  (__ensure_permissions_linked f).map FacadeEvent.touchPermission ++
    [FacadeEvent.touchMetadata]

/-- Embedding of the public facade `request_location_permission`
(src/lib.rs lines 237-255). -/
def request_location_permission (env : FacadeEnv) :
    Bool × List FacadeEvent :=
  (dispatch_request_permission env,
   linkEvents env.features ++ [FacadeEvent.dispatchBackend env.target])

/-- Embedding of the public facade `last_known_location`
(src/lib.rs lines 300-318). -/
def last_known_location (env : FacadeEnv) :
    Option Coordinate × List FacadeEvent :=
  (dispatch_last_known env,
   linkEvents env.features ++ [FacadeEvent.dispatchBackend env.target])

end Geo

namespace Verify

open Darwin

/-- Claim C1: on the Darwin backend, called on the main thread, `last_known`
queries the authorization status only informationally (the returned value
does not depend on it), returns the cached fix immediately on the fast path
with no update-start and no sleep, and on the slow path starts updates,
sleeps 1000 ms, re-queries, stops updates and returns the re-queried fix. -/
theorem c1_last_known_paths (env : DarwinEnv) (s : CLAuthorizationStatus)
    (hm : env.onMainThread = true) :
    last_known env =
      (match env.cachedFix with
       | some c =>
           (some c, [DarwinCall.getManager, DarwinCall.queryAuthStatus,
                     DarwinCall.queryLocation])
       | none =>
           (env.fixAfterWait,
            [DarwinCall.getManager, DarwinCall.queryAuthStatus,
             DarwinCall.queryLocation, DarwinCall.startUpdating,
             DarwinCall.sleepMs 1000, DarwinCall.queryLocation,
             DarwinCall.stopUpdating]))
    ∧ (last_known { env with authStatus := s }).1 = (last_known env).1
    ∧ (last_known env).2.count DarwinCall.queryAuthStatus = 1 := by
  refine ⟨?_, ?_, ?_⟩
  · simp [last_known, hm]
  · cases env with
    | mk m a cf fw =>
        cases m with
        | true => cases cf <;> simp [last_known]
        | false => simp at hm
  · simp only [last_known, hm, if_true]
    cases env.cachedFix <;> simp [List.count]

/-- Witness for C1 at a concrete environment (Scenario A's fast path with the
fix (37.7749, -122.4194), authorization `AuthorizedWhenInUse`). -/
theorem c1_last_known_paths_witness :
    last_known ⟨true, CLAuthorizationStatus.authorizedWhenInUse,
        some ((377749 : ℚ)/10000, -(1224194 : ℚ)/10000), none⟩ =
      (some ((377749 : ℚ)/10000, -(1224194 : ℚ)/10000),
       [DarwinCall.getManager, DarwinCall.queryAuthStatus,
        DarwinCall.queryLocation])
    ∧ (last_known ⟨true, CLAuthorizationStatus.denied,
        some ((377749 : ℚ)/10000, -(1224194 : ℚ)/10000), none⟩).1 =
      (last_known ⟨true, CLAuthorizationStatus.authorizedWhenInUse,
        some ((377749 : ℚ)/10000, -(1224194 : ℚ)/10000), none⟩).1
    ∧ (last_known ⟨true, CLAuthorizationStatus.authorizedWhenInUse,
        some ((377749 : ℚ)/10000, -(1224194 : ℚ)/10000),
        none⟩).2.count DarwinCall.queryAuthStatus = 1 :=
  c1_last_known_paths
    ⟨true, CLAuthorizationStatus.authorizedWhenInUse,
      some ((377749 : ℚ)/10000, -(1224194 : ℚ)/10000), none⟩
    CLAuthorizationStatus.denied rfl

/-- Claim C2: on the Darwin backend, `request_permission` returns `false`
with no native call off the main thread; on the main thread it returns
`true`, and the native when-in-use prompt is issued exactly once when the
authorization status is `NotDetermined` and zero times otherwise. -/
theorem c2_request_permission (env : DarwinEnv) :
    request_permission env =
      (if env.onMainThread then
        (true, [DarwinCall.getManager, DarwinCall.queryAuthStatus] ++
          (if env.authStatus = CLAuthorizationStatus.notDetermined then
            [DarwinCall.promptWhenInUse] else []))
      else (false, []))
    ∧ (request_permission env).2.count DarwinCall.promptWhenInUse =
        (if env.onMainThread = true
            ∧ env.authStatus = CLAuthorizationStatus.notDetermined
         then 1 else 0) := by
  constructor
  · simp [request_permission]
  · by_cases hm : env.onMainThread
    · by_cases ha : env.authStatus = CLAuthorizationStatus.notDetermined <;>
        simp [request_permission, hm, ha, List.count]
    · simp [request_permission, hm]

/-- Claim C3: on the Darwin backend, any call from a thread other than the
owning (main) thread returns `false` (for `request_permission`) or `None`
(for `last_known`) with an empty native-call trace: the manager is neither
created nor dereferenced, and no error value other than `false`/`None` is
produced. -/
theorem c3_off_thread (env : DarwinEnv) (h : env.onMainThread = false) :
    request_permission env = (false, [])
    ∧ last_known env = (none, []) := by
  constructor
  · simp [request_permission, h]
  · simp [last_known, h]

/-- Witness for C3 at a concrete off-main-thread environment. -/
theorem c3_off_thread_witness :
    request_permission
        ⟨false, CLAuthorizationStatus.notDetermined, some (1, 2), some (3, 4)⟩
      = (false, [])
    ∧ last_known
        ⟨false, CLAuthorizationStatus.notDetermined, some (1, 2), some (3, 4)⟩
      = (none, []) :=
  c3_off_thread
    ⟨false, CLAuthorizationStatus.notDetermined, some (1, 2), some (3, 4)⟩ rfl

/-- Claim C4: every `last_known` execution on the Darwin backend stops active
updates exactly as often as it starts them (at most once), and its trace ends
with the stop call precisely when the slow path was entered (main thread and
no cached fix) — whether or not the wait produced a fix, no call returns
with updates left running. -/
theorem c4_updates_stopped (env : DarwinEnv) :
    (last_known env).2.count DarwinCall.startUpdating =
      (last_known env).2.count DarwinCall.stopUpdating
    ∧ (last_known env).2.count DarwinCall.startUpdating ≤ 1
    ∧ ((last_known env).2.getLast? = some DarwinCall.stopUpdating ↔
        env.onMainThread = true ∧ env.cachedFix = none) := by
  by_cases hm : env.onMainThread
  · cases hc : env.cachedFix <;>
      simp [last_known, hm, hc, List.count, List.getLast?]
  · simp [last_known, hm]

/-- Folding the callback effect over an event list yields the most recent
success, falling back to the starting cache when no callback succeeded. -/
lemma foldl_applyCallback (events : List Web.CallbackEvent)
    (acc : Option Coordinate) :
    events.foldl Web.applyCallback acc =
      match Web.lastSuccessCoord events with
      | some c => some c
      | none => acc := by
  induction events generalizing acc with
  | nil => simp [Web.lastSuccessCoord]
  | cons e rest ih =>
      rw [List.foldl_cons, ih]
      cases h : Web.lastSuccessCoord rest with
      | some c => simp [Web.lastSuccessCoord, h]
      | none => cases e <;> simp [Web.lastSuccessCoord, Web.applyCallback, h]

/-- Claim C5: on the web backend, `last_known` is a pure read performing no
native call; starting from the empty process-start cache, after any sequence
of delivered callbacks it returns exactly the coordinate of the most recent
successful callback (`None` when none succeeded yet); a failed callback
leaves the cache unchanged while a successful one overwrites it. -/
theorem c5_last_known_cache (events : List Web.CallbackEvent)
    (cache : Option Coordinate) (c : Coordinate) :
    (Web.last_known cache).2 = []
    ∧ (Web.last_known (events.foldl Web.applyCallback Web.initialCache)).1 =
        Web.lastSuccessCoord events
    ∧ Web.applyCallback cache Web.CallbackEvent.failure = cache
    ∧ Web.applyCallback cache (Web.CallbackEvent.success c) = some c := by
  refine ⟨rfl, ?_, rfl, rfl⟩
  rw [Web.last_known, foldl_applyCallback]
  cases Web.lastSuccessCoord events <;> simp [Web.initialCache]

/-- Counterexample to claim C6 as stated: with a window present, the
geolocation API available, but the native request call rejecting
synchronously, `request_permission` returns `false` even though the API is
available — the return value is not availability alone. -/
theorem c6_counterexample :
    ({ hasWindow := true, geolocationAvailable := true,
       requestAccepted := false } : Web.WebEnv).geolocationAvailable = true
    ∧ (Web.request_permission
        { hasWindow := true, geolocationAvailable := true,
          requestAccepted := false } Web.initialCache).1 = false :=
  ⟨rfl, rfl⟩

/-- Claim C6 (amended): on the web backend, `request_permission` checks that
a window exists and the geolocation API is available; if so it immediately
issues the cache-populating position request, and it returns whether that
request was successfully issued (availability and synchronous acceptance of
the native call) — never the grant outcome, and never a cache change. -/
theorem c6_request_permission_amended (env : Web.WebEnv)
    (cache : Option Coordinate) :
    Web.request_permission env cache =
      (env.hasWindow && env.geolocationAvailable && env.requestAccepted,
       cache,
       if env.hasWindow && env.geolocationAvailable then
         [Web.WebCall.issueRequest Web.syncOptions]
       else []) := by
  obtain ⟨w, g, r⟩ := env
  cases w <;> cases g <;> cases r <;>
    simp [Web.request_permission, Web.get_current_position_sync]

/-- Claim C7: `get_current_position_sync` issues at most one native position
request, configured with low accuracy, a 10000 ms timeout and a 60000 ms
maximum cached-position age, exactly when a window and the geolocation API
exist; its return value is whether the native call accepted the request (not
whether the fetch will succeed); the cache is never modified by the call
itself and a later failure callback leaves it unchanged. -/
theorem c7_get_current_position_sync (env : Web.WebEnv)
    (cache : Option Coordinate) :
    Web.get_current_position_sync env cache =
      (if env.hasWindow && env.geolocationAvailable then
        (env.requestAccepted, cache,
         [Web.WebCall.issueRequest
           { enableHighAccuracy := false, timeout := 10000,
             maximumAge := 60000 }])
      else (false, cache, []))
    ∧ (Web.get_current_position_sync env cache).2.2.length ≤ 1
    ∧ (Web.get_current_position_sync env cache).2.1 = cache
    ∧ Web.applyCallback cache Web.CallbackEvent.failure = cache := by
  obtain ⟨w, g, r⟩ := env
  cases w <;> cases g <;> cases r <;>
    simp [Web.get_current_position_sync, Web.syncOptions, Web.applyCallback]

/-- Claim C8: `get_current_position` issues its request with high accuracy,
zero maximum cached-position age and a 10000 ms timeout, and returns an
error exactly when there is no window, the geolocation API is unavailable,
or the native request call rejects synchronously. -/
theorem c8_get_current_position (env : Web.WebEnv) :
    Web.exceptIsOk (Web.get_current_position env).1 =
      (env.hasWindow && env.geolocationAvailable && env.requestAccepted)
    ∧ (Web.get_current_position env).2 =
      (if env.hasWindow && env.geolocationAvailable then
        [Web.WebCall.issueRequest
          { enableHighAccuracy := true, timeout := 10000, maximumAge := 0 }]
      else []) := by
  obtain ⟨w, g, r⟩ := env
  cases w <;> cases g <;> cases r <;>
    simp [Web.get_current_position, Web.exceptIsOk, Web.asyncOptions]

/-- Claim C10: when the web request cannot be issued (no window, or the
geolocation API unavailable), `get_current_position_sync` — and hence
`request_permission` — returns `false` with no native call (so no callback
is installed) and with the cache untouched, leaving every subsequent
`last_known` result unchanged. -/
theorem c10_failed_issuance (env : Web.WebEnv) (cache : Option Coordinate)
    (h : env.hasWindow = false ∨ env.geolocationAvailable = false) :
    Web.get_current_position_sync env cache = (false, cache, [])
    ∧ Web.request_permission env cache = (false, cache, [])
    ∧ (Web.last_known (Web.get_current_position_sync env cache).2.1).1 =
        (Web.last_known cache).1 := by
  obtain ⟨w, g, r⟩ := env
  rcases h with h | h
  · simp only at h
    subst h
    simp [Web.get_current_position_sync, Web.request_permission,
      Web.last_known]
  · simp only at h
    subst h
    cases w <;>
      simp [Web.get_current_position_sync, Web.request_permission,
        Web.last_known]

/-- Claim C9: both public facade operations, on every target and for every
feature set, emit the same event sequence: one dereference of each enabled
capability declaration (exactly once each, none when disabled), then the
metadata touch, and only then — as the very last event — the dispatch to
the selected backend. -/
theorem c9_link_before_dispatch (env : Geo.FacadeEnv) :
    (Geo.request_location_permission env).2 =
      (Geo.__ensure_permissions_linked env.features).map
          Geo.FacadeEvent.touchPermission ++
        [Geo.FacadeEvent.touchMetadata,
         Geo.FacadeEvent.dispatchBackend env.target]
    ∧ (Geo.last_known_location env).2 =
        (Geo.request_location_permission env).2
    ∧ (Geo.request_location_permission env).2.count
        (Geo.FacadeEvent.touchPermission Geo.PermissionKind.locationFine) =
      (if env.features.locationFine then 1 else 0)
    ∧ (Geo.request_location_permission env).2.count
        (Geo.FacadeEvent.touchPermission Geo.PermissionKind.locationCoarse) =
      (if env.features.locationCoarse then 1 else 0)
    ∧ (Geo.request_location_permission env).2.count
        (Geo.FacadeEvent.touchPermission
          Geo.PermissionKind.backgroundLocation) =
      (if env.features.backgroundLocation then 1 else 0)
    ∧ (Geo.request_location_permission env).2.getLast? =
        some (Geo.FacadeEvent.dispatchBackend env.target) := by
  obtain ⟨⟨ff, fc, fb⟩, t, de, we, wc, ar, al⟩ := env
  refine ⟨?_, ?_, ?_, ?_, ?_, ?_⟩
  · simp [Geo.request_location_permission, Geo.linkEvents]
  · simp [Geo.request_location_permission, Geo.last_known_location]
  · cases ff <;> cases fc <;> cases fb <;>
      simp [Geo.request_location_permission, Geo.linkEvents,
        Geo.__ensure_permissions_linked, List.count]
  · cases ff <;> cases fc <;> cases fb <;>
      simp [Geo.request_location_permission, Geo.linkEvents,
        Geo.__ensure_permissions_linked, List.count]
  · cases ff <;> cases fc <;> cases fb <;>
      simp [Geo.request_location_permission, Geo.linkEvents,
        Geo.__ensure_permissions_linked, List.count]
  · rw [Geo.request_location_permission]
    simp [List.getLast?_concat]

/-- Witness for C10 at a concrete environment with no window object. -/
theorem c10_failed_issuance_witness :
    Web.get_current_position_sync
        { hasWindow := false, geolocationAvailable := true,
          requestAccepted := true } (some (5, 6))
      = (false, some (5, 6), [])
    ∧ Web.request_permission
        { hasWindow := false, geolocationAvailable := true,
          requestAccepted := true } (some (5, 6))
      = (false, some (5, 6), [])
    ∧ (Web.last_known (Web.get_current_position_sync
        { hasWindow := false, geolocationAvailable := true,
          requestAccepted := true } (some (5, 6))).2.1).1 =
      (Web.last_known (some ((5 : ℚ), (6 : ℚ)))).1 :=
  c10_failed_issuance
    { hasWindow := false, geolocationAvailable := true,
      requestAccepted := true } (some (5, 6)) (Or.inl rfl)

end Verify
